import Mathlib

/-!
Verification of the PyTubeSearch extraction engine specification.

The repository ships examples and tests; the extraction core itself
(renderer-tree walker, item decoder, continuation extractor, pagination
controller, video-detail decoder) is modelled from the specification in
`spec.md`, faithful to its wording, over a JSON-like tree type.
-/

-- A JSON-like value, as consumed by the extraction engine.  Mappings and
-- sequences are mutually inductive so that all traversals are structural.
mutual

inductive J where
  | null : J
  | bool : Bool → J
  | str : String → J
  | num : Int → J
  | arr : JList → J
  | obj : JObj → J

inductive JList where
  | nil : JList
  | cons : J → JList → JList

inductive JObj where
  | onil : JObj
  | ocons : String → J → JObj → JObj

end

/-- Key lookup in a JSON mapping (first occurrence wins). -/
def JObj.lookup : JObj → String → Option J
  | .onil, _ => none
  | .ocons k v rest, key => if k = key then some v else rest.lookup key

/-- Key lookup on a JSON value: `none` unless the value is a mapping
containing the key. -/
def J.lookup : J → String → Option J
  | .obj fs, k => fs.lookup k
  | _, _ => none

/-- The four content-item renderer kinds of the data model
(`SearchItem` variants video / channel / playlist / movie). -/
def itemKinds : List String :=
  ["videoRenderer", "channelRenderer", "playlistRenderer", "movieRenderer"]

/-- The continuation-item renderer kind (pagination marker). -/
def contKind : String := "continuationItemRenderer"

/-- All registered node-kind names the walker matches against. -/
def allKinds : List String := itemKinds ++ [contKind]

/-- Find the first field of a mapping whose key is a registered node kind. -/
def findKind : JObj → Option (String × J)
  | .onil => none
  | .ocons k v rest => if allKinds.contains k then some (k, v) else findKind rest

-- Modelled from the spec: the RendererTreeWalker (spec 4.2), whose Python
-- source is absent from the repository.  Depth-first, left-to-right traversal
-- yielding (kind, node) candidate pairs.  A mapping matching a registered
-- content kind is yielded as a leaf of interest (children not descended);
-- a continuation container is yielded and its children are still scanned
-- for nested continuation markers.
mutual

def walk : J → List (String × J)
  | .obj fs =>
    match findKind fs with
    | some kv =>
      if kv.1 = contKind then kv :: walkObj fs else [kv]
    | none => walkObj fs
  | .arr xs => walkList xs
  | .null => []
  | .bool _ => []
  | .str _ => []
  | .num _ => []

def walkList : JList → List (String × J)
  | .nil => []
  | .cons x xs => walk x ++ walkList xs

def walkObj : JObj → List (String × J)
  | .onil => []
  | .ocons _ v rest => walk v ++ walkObj rest

end

/-- Text of a run-list: concatenation of the `text` fields of its entries. -/
def runsText : JList → String
  | .nil => ""
  | .cons r rest =>
    (match r.lookup "text" with
     | some (.str s) => s
     | _ => "") ++ runsText rest

/-- Modelled from the spec: text extraction from a renderer text field, which
is either plain text, a `simpleText` wrapper, or a nested run-list needing
concatenation (spec section 6, renderer node contract). -/
def textOf : J → Option String
  | .str s => some s
  | .obj fs =>
    (match fs.lookup "simpleText" with
     | some (.str s) => some s
     | _ =>
       match fs.lookup "runs" with
       | some (.arr rs) => some (runsText rs)
       | _ => none)
  | _ => none

/-- String payload of an optional JSON value. -/
def strOf : Option J → Option String
  | some (.str s) => some s
  | _ => none

/-- Integer payload of an optional JSON value (numeric or numeric string). -/
def intOf : Option J → Option Int
  | some (.num n) => some n
  | some (.str s) => s.toInt?
  | _ => none

/-- Whether one badge entry is the live-indicator marker. -/
def isLiveBadge (b : J) : Bool :=
  match (b.lookup "metadataBadgeRenderer").bind (fun m => m.lookup "style") with
  | some (.str s) => s = "BADGE_STYLE_TYPE_LIVE_NOW"
  | _ => false

/-- Whether any badge in a badge list is the live-indicator marker. -/
def anyLiveBadge : JList → Bool
  | .nil => false
  | .cons b rest => isLiveBadge b || anyLiveBadge rest

/-- Modelled from the spec: live-status derivation (spec 4.3) — scan the
node's badge list for a live-indicator marker; absence of the list
defaults to false. -/
def hasLiveBadge (node : J) : Bool :=
  match node.lookup "badges" with
  | some (.arr bs) => anyLiveBadge bs
  | _ => false

/-- The tagged search-result variant (spec section 3): every variant exposes
the full common field set; fields inapplicable to a variant default to
`none` (or `false` for `is_live`). -/
structure SearchItem where
  id : String
  type : String
  title : String
  channel_title : Option String := none
  short_byline_text : Option String := none
  length : Option String := none
  is_live : Bool := false
  video_count : Option Int := none
  thumbnail : Option J := none

/-- Modelled from the spec: the video / movie item decoder (spec 4.3).
Required id and title absent means skip (`none`), never an error;
duration text is taken verbatim; live status from the badge scan. -/
def decodeVideoLike (ty : String) (node : J) : Option SearchItem :=
  match strOf (node.lookup "videoId"), (node.lookup "title").bind textOf with
  | some i, some title =>
    some { id := i, type := ty, title := title,
           channel_title := (node.lookup "ownerText").bind textOf,
           short_byline_text := (node.lookup "shortBylineText").bind textOf,
           length := (node.lookup "lengthText").bind textOf,
           is_live := hasLiveBadge node,
           thumbnail := node.lookup "thumbnail" }
  | _, _ => none

/-- Modelled from the spec: the channel item decoder (spec 4.3); channels
add no extra required fields beyond id, title and type. -/
def decodeChannel (node : J) : Option SearchItem :=
  match strOf (node.lookup "channelId"), (node.lookup "title").bind textOf with
  | some i, some title =>
    some { id := i, type := "channel", title := title,
           thumbnail := node.lookup "thumbnail" }
  | _, _ => none

/-- Modelled from the spec: the playlist item decoder (spec 4.3); playlists
add an optional video count. -/
def decodePlaylist (node : J) : Option SearchItem :=
  match strOf (node.lookup "playlistId"), (node.lookup "title").bind textOf with
  | some i, some title =>
    some { id := i, type := "playlist", title := title,
           video_count := intOf (node.lookup "videoCount"),
           thumbnail := node.lookup "thumbnail" }
  | _, _ => none

/-- Modelled from the spec: the ItemDecoder (spec 4.3).  Converts one
candidate node plus its kind tag into a typed item, or `none` (the skip
signal) for unrecognized kinds or structurally incomplete nodes. -/
def decodeItem (kind : String) (node : J) : Option SearchItem :=
  if kind = "videoRenderer" then decodeVideoLike "video" node
  else if kind = "movieRenderer" then decodeVideoLike "movie" node
  else if kind = "channelRenderer" then decodeChannel node
  else if kind = "playlistRenderer" then decodePlaylist node
  else none

/-- Token string carried by a continuation node, at
`continuationEndpoint.continuationCommand.token`. -/
def contTokenOf (node : J) : Option String :=
  strOf (((node.lookup "continuationEndpoint").bind
    (fun e => e.lookup "continuationCommand")).bind
    (fun c => c.lookup "token"))

/-- Opaque pagination token (spec section 3): a token string, or `none` when
pagination has terminated, together with the opaque request context. -/
structure NextPageToken where
  token : Option String := none
  context : Option J := none

/-- The continuation-kind candidate nodes of a tree, in the walker's
depth-first left-to-right traversal order. -/
def continuationNodes (t : J) : List J :=
  (walk t).filterMap (fun kv => if kv.1 = contKind then some kv.2 else none)

/-- The last continuation-kind node encountered by the walker, tracked as a
running fold over the candidate stream. -/
def lastContinuationNode (t : J) : Option J :=
  (walk t).foldl (fun acc kv => if kv.1 = contKind then some kv.2 else acc) none

/-- Modelled from the spec: the ContinuationExtractor (spec 4.4).  With no
continuation node anywhere in the tree the token is `{token := none,
context := none}` (terminal, not an error); with several, the last one in
traversal order is authoritative; the request context is copied verbatim
alongside a non-null token. -/
def getNextPageToken (t : J) (ctx : Option J) : NextPageToken :=
  match lastContinuationNode t with
  | none => {}
  | some node =>
    match contTokenOf node with
    | some tok => { token := some tok, context := ctx }
    | none => {}

/-- All items decodable from a tree, in traversal order; skip signals are
silently dropped. -/
def decodeItems (t : J) : List SearchItem :=
  (walk t).filterMap (fun kv => decodeItem kv.1 kv.2)

/-- One page of results (spec section 3): ordered items plus the token for
the next page. -/
structure ResultPage where
  items : List SearchItem
  next_page : NextPageToken

/-- Modelled from the spec: one fetch+decode cycle of the pagination
controller over an already-fetched tree (spec 4.2 to 4.4 and 4.7).  The
limit truncates the decoded sequence only; the continuation token is
extracted from the full untruncated tree. -/
def decodeSearchPage (t : J) (ctx : Option J) (limit : Option Nat) : ResultPage :=
  { items :=
      match limit with
      | none => decodeItems t
      | some n => (decodeItems t).take n,
    next_page := getNextPageToken t ctx }

/-- Error taxonomy (spec section 7): a base error type whose data-extraction
case signals a violated mandatory structural expectation. -/
inductive PyTubeSearchError where
  | dataExtraction : String → PyTubeSearchError
  | network : String → PyTubeSearchError

/-- The message raised when `nextPage` is invoked on an exhausted token. -/
def exhaustedMsg : String := "next page token is exhausted"

/-- Modelled from the spec: `nextPage` of the PaginationController (spec
4.7).  It fails with a data-extraction error when invoked on a token whose
token field is null; otherwise it decodes the fetched tree. -/
def nextPage (fetched : J) (ctx : Option J) (tok : NextPageToken)
    (limit : Option Nat) : Except PyTubeSearchError ResultPage :=
  match tok.token with
  | none => .error (.dataExtraction exhaustedMsg)
  | some _ => .ok (decodeSearchPage fetched ctx limit)

/-- Full video metadata (spec section 3). -/
structure VideoDetails where
  id : String
  title : String
  channel : Option String := none
  channel_id : Option String := none
  description : String := ""
  keywords : List String := []
  thumbnail : Option J := none
  is_live : Bool := false
  suggestion : List SearchItem := []

/-- The string entries of a JSON sequence, in order. -/
def strListOf : JList → List String
  | .nil => []
  | .cons (.str s) rest => s :: strListOf rest
  | .cons _ rest => strListOf rest

/-- Keyword list of a player-response details blob. -/
def keywordsOf (vd : J) : List String :=
  match vd.lookup "keywords" with
  | some (.arr xs) => strListOf xs
  | _ => []

/-- Suggestions: the secondary tree walked restricted to video-kind nodes. -/
def decodeVideoSuggestions (t : J) : List SearchItem :=
  (walk t).filterMap (fun kv =>
    if kv.1 = "videoRenderer" then decodeItem kv.1 kv.2 else none)

/-- Modelled from the spec: the VideoDetailDecoder (spec 4.5).  The
player-response blob is authoritative for the primary metadata and must
carry `videoDetails` with mandatory `videoId` and `title`; the secondary
tree populates suggestions, best-effort, with absence yielding an empty
sequence rather than an error. -/
def getVideoDetails (playerResponse : J) (secondary : Option J) :
    Except PyTubeSearchError VideoDetails :=
  match playerResponse.lookup "videoDetails" with
  | none => .error (.dataExtraction "videoDetails blob missing")
  | some vd =>
    match strOf (vd.lookup "videoId"), strOf (vd.lookup "title") with
    | some i, some title =>
      .ok { id := i, title := title,
            channel := strOf (vd.lookup "author"),
            channel_id := strOf (vd.lookup "channelId"),
            description := (strOf (vd.lookup "shortDescription")).getD "",
            keywords := keywordsOf vd,
            thumbnail := vd.lookup "thumbnail",
            is_live :=
              (match vd.lookup "isLive" with
               | some (.bool b) => b
               | _ => false),
            suggestion :=
              match secondary with
              | none => []
              | some t => decodeVideoSuggestions t }
    | _, _ => .error (.dataExtraction "videoId or title missing")

/-- Playlist contents (spec section 3): an opaque metadata blob plus an
ordered video list. -/
structure PlaylistData where
  metadata : Option J := none
  items : List SearchItem := []

/-- Modelled from the spec: the PlaylistDecoder (spec 4.6) — video-kind
items via the shared walker and decoder, metadata kept as an opaque blob. -/
def getPlaylistData (t : J) (limit : Option Nat) : PlaylistData :=
  { metadata := t.lookup "metadata",
    items :=
      match limit with
      | none => decodeVideoSuggestions t
      | some n => (decodeVideoSuggestions t).take n }

/-- Build a JSON sequence from a Lean list. -/
def JList.ofList : List J → JList
  | [] => .nil
  | x :: xs => .cons x (JList.ofList xs)

/-- Build a JSON mapping from a Lean association list. -/
def JObj.ofList : List (String × J) → JObj
  | [] => .onil
  | (k, v) :: xs => .ocons k v (JObj.ofList xs)

/-- Sequence literal helper. -/
def jarr (xs : List J) : J := .arr (.ofList xs)

/-- Mapping literal helper. -/
def jobj (fs : List (String × J)) : J := .obj (.ofList fs)

/-- A run-list text value, as the upstream tree encodes titles and bylines. -/
def jruns (s : String) : J := jobj [("runs", jarr [jobj [("text", .str s)]])]

/-- The inner video-renderer node of the repository's
`mock_youtube_init_data` fixture (src/tests/conftest.py). -/
def mockVideoNode : J := jobj
  [("videoId", .str "test_video_id"),
   ("title", jruns "Test Video Title"),
   ("thumbnail", jobj [("thumbnails", jarr [jobj [("url", .str "test_thumbnail.jpg")]])]),
   ("ownerText", jruns "Test Channel"),
   ("lengthText", jobj [("simpleText", .str "5:30")]),
   ("shortBylineText", jruns "Test Channel"),
   ("badges", jarr [])]

/-- A continuation node carrying the given token string. -/
def contNodeWith (tok : String) : J := jobj
  [("continuationEndpoint", jobj
     [("continuationCommand", jobj [("token", .str tok)])])]

/-- The repository's `mock_youtube_init_data` fixture tree
(src/tests/conftest.py): one video renderer followed by one continuation
node with token "test_continuation_token". -/
def mockYoutubeInitData : J := jobj
  [("contents", jobj
    [("twoColumnSearchResultsRenderer", jobj
      [("primaryContents", jobj
        [("sectionListRenderer", jobj
          [("contents", jarr
            [jobj [("itemSectionRenderer", jobj
               [("contents", jarr [jobj [("videoRenderer", mockVideoNode)]])])],
             jobj [("continuationItemRenderer",
                    contNodeWith "test_continuation_token")]])])])])])]

/-- The item the fixture tree is expected to decode to. -/
def expectedMockItem : SearchItem :=
  { id := "test_video_id", type := "video", title := "Test Video Title",
    channel_title := some "Test Channel",
    short_byline_text := some "Test Channel",
    length := some "5:30",
    is_live := false,
    video_count := none,
    thumbnail := some (jobj
      [("thumbnails", jarr [jobj [("url", .str "test_thumbnail.jpg")]])]) }

/-- Whether a pagination call failed. -/
def isErr : Except PyTubeSearchError ResultPage → Bool
  | .error _ => true
  | .ok _ => false

/-- A minimal decodable video-renderer node. -/
def tinyVideo (i : String) : J :=
  jobj [("videoId", .str i), ("title", jobj [("simpleText", .str ("Video " ++ i))])]

/-- A wrapped video-renderer candidate. -/
def wrapVideo (i : String) : J := jobj [("videoRenderer", tinyVideo i)]

/-- A tree with eight decodable video nodes and one trailing continuation. -/
def eightVideoTree : J := jarr
  [wrapVideo "v1", wrapVideo "v2", wrapVideo "v3", wrapVideo "v4",
   wrapVideo "v5", wrapVideo "v6", wrapVideo "v7", wrapVideo "v8",
   jobj [("continuationItemRenderer", contNodeWith "tok8")]]

/-- A tree with two continuation nodes; the later one is authoritative. -/
def twoContTree : J := jarr
  [jobj [("continuationItemRenderer", contNodeWith "first_token")],
   jobj [("videoRenderer", mockVideoNode)],
   jobj [("continuationItemRenderer", contNodeWith "last_token")]]

/-- A tree with no continuation node at all. -/
def noContTree : J := jarr [jobj [("videoRenderer", tinyVideo "only")]]

/-- A tree pairing one unrecognized renderer kind with one valid video. -/
def mixedKindTree : J := jarr
  [jobj [("unknownRenderer", jobj [("videoId", .str "ignored")])],
   jobj [("videoRenderer", tinyVideo "kept")]]

/-- A video node whose badge list carries the live-indicator marker. -/
def liveVideoNode : J := jobj
  [("videoId", .str "live1"),
   ("title", jobj [("simpleText", .str "Live Stream")]),
   ("badges", jarr [jobj [("metadataBadgeRenderer",
      jobj [("style", .str "BADGE_STYLE_TYPE_LIVE_NOW")])]])]

/-- A video node with no badge list at all. -/
def noBadgeVideoNode : J := tinyVideo "nobadge"

/-- The repository's `mock_youtube_player_data` fixture
(src/tests/conftest.py). -/
def mockPlayerData : J := jobj
  [("videoDetails", jobj
    [("videoId", .str "test_video_id"),
     ("title", .str "Test Video Title"),
     ("author", .str "Test Channel"),
     ("channelId", .str "test_channel_id"),
     ("shortDescription", .str "Test video description"),
     ("keywords", jarr [.str "test", .str "video", .str "python"]),
     ("thumbnail", jobj [("thumbnails", jarr [jobj [("url", .str "test_thumbnail.jpg")]])])])]

/-- A player-response blob whose details lack the mandatory video id. -/
def missingIdPlayerData : J := jobj
  [("videoDetails", jobj [("title", .str "No Id Here")])]

/-- `getLast?` of a cons, expressed through `Option.or`. -/
theorem getLast?_cons_or (x : J) (xs : List J) :
    (x :: xs).getLast? = xs.getLast?.or (some x) := by
  cases xs with
  | nil => rfl
  | cons b bs =>
    rw [List.getLast?_cons_cons]
    cases h : (b :: bs).getLast? with
    | none => simp at h
    | some z => rfl

/-- The running last-continuation fold over a candidate stream computes the
last element of the filtered continuation sequence. -/
theorem foldl_lastCont (l : List (String × J)) (acc : Option J) :
    l.foldl (fun a kv => if kv.1 = contKind then some kv.2 else a) acc
      = (l.filterMap
          (fun kv => if kv.1 = contKind then some kv.2 else none)).getLast?.or acc := by
  induction l generalizing acc with
  | nil => simp
  | cons kv rest ih =>
    by_cases h : kv.1 = contKind
    · simp only [List.foldl_cons, List.filterMap_cons, h, if_true, ih,
        getLast?_cons_or]
      cases (rest.filterMap
          (fun kv => if kv.1 = contKind then some kv.2 else none)).getLast? with
      | none => rfl
      | some z => rfl
    · simp only [List.foldl_cons, List.filterMap_cons, h, if_false, ih]

/-- The extractor's running fold and the filtered traversal agree. -/
theorem lastContinuationNode_eq (t : J) :
    lastContinuationNode t = (continuationNodes t).getLast? := by
  unfold lastContinuationNode continuationNodes
  rw [foldl_lastCont, Option.or_none]

/-- C1: decoding the fixture tree — one video renderer (id "test_video_id",
run-text title "Test Video Title", owner-text "Test Channel", length "5:30",
empty badge list) followed by one continuation node with token
"test_continuation_token" — yields a ResultPage with exactly that one Video
item (is_live false) and a next-page token "test_continuation_token" whose
request context is echoed unmodified. -/
theorem searchPage_roundtrip_mock (ctx : Option J) :
    decodeSearchPage mockYoutubeInitData ctx none =
      { items := [expectedMockItem],
        next_page := { token := some "test_continuation_token",
                       context := ctx } } := rfl

/-- C2: a tree with zero continuation-kind nodes decodes to a page whose
next-page token is null (terminal, not an error); invoking nextPage on that
page's token raises the data-extraction error; and nextPage errors exactly
when its token argument has a null token field. -/
theorem pagination_exhaustion (t fetched : J) (ctx c2 : Option J)
    (limit l2 : Option Nat) (tok : NextPageToken)
    (h : continuationNodes t = []) :
    (decodeSearchPage t ctx limit).next_page.token = none
    ∧ nextPage fetched c2 (decodeSearchPage t ctx limit).next_page l2
        = .error (.dataExtraction exhaustedMsg)
    ∧ (isErr (nextPage fetched c2 tok l2) = true ↔ tok.token = none) := by
  have hlast : lastContinuationNode t = none := by
    rw [lastContinuationNode_eq, h]; rfl
  have htok : (decodeSearchPage t ctx limit).next_page.token = none := by
    simp [decodeSearchPage, getNextPageToken, hlast]
  refine ⟨htok, ?_, ?_⟩
  · simp [nextPage, htok]
  · cases htk : tok.token <;> simp [nextPage, isErr, htk]

/-- Witness for C2 at the concrete continuation-free tree. -/
theorem pagination_exhaustion_witness :
    continuationNodes noContTree = []
    ∧ (decodeSearchPage noContTree none none).next_page.token = none
    ∧ nextPage (jarr []) none (decodeSearchPage noContTree none none).next_page none
        = .error (.dataExtraction exhaustedMsg) :=
  ⟨rfl,
   (pagination_exhaustion noContTree (jarr []) none none none none {} rfl).1,
   (pagination_exhaustion noContTree (jarr []) none none none none {} rfl).2.1⟩

/-- C6: with several continuation-kind nodes in the tree, the extractor is
driven by the last one in depth-first left-to-right traversal order, and the
accompanying request context is copied verbatim into the returned token. -/
theorem continuation_last_verbatim (t ctx node : J) (tok : String)
    (h1 : (continuationNodes t).getLast? = some node)
    (h2 : contTokenOf node = some tok) :
    getNextPageToken t (some ctx)
      = { token := some tok, context := some ctx } := by
  unfold getNextPageToken
  rw [lastContinuationNode_eq, h1]
  simp [h2]

/-- Witness for C6 at a concrete two-continuation tree: the later token
"last_token" wins and the context comes back byte-for-byte. -/
theorem continuation_last_verbatim_witness :
    (continuationNodes twoContTree).getLast? = some (contNodeWith "last_token")
    ∧ contTokenOf (contNodeWith "last_token") = some "last_token"
    ∧ getNextPageToken twoContTree (some (J.str "ctx"))
        = { token := some "last_token", context := some (J.str "ctx") } :=
  ⟨rfl, rfl,
   continuation_last_verbatim twoContTree (J.str "ctx")
     (contNodeWith "last_token") "last_token" rfl rfl⟩

/-- C10: every decoded ResultPage carries a readable next-page token object
(extracted from the full tree), and a follow-up nextPage call errors exactly
when that token's token field is null — so the caller's loop guard on the
token field is total. -/
theorem next_page_always_readable (t fetched : J) (ctx c2 : Option J)
    (limit l2 : Option Nat) :
    (decodeSearchPage t ctx limit).next_page = getNextPageToken t ctx
    ∧ (isErr (nextPage fetched c2 (decodeSearchPage t ctx limit).next_page l2)
         = true
        ↔ (decodeSearchPage t ctx limit).next_page.token = none) := by
  refine ⟨rfl, ?_⟩
  cases h : (decodeSearchPage t ctx limit).next_page.token <;>
    simp [nextPage, isErr, h]

/-- Inversion for the video / movie decoder: a decoded item carries the
requested type tag, the badge-scan live status, and no video count. -/
theorem decodeVideoLike_inv (ty : String) (node : J) (it : SearchItem)
    (h : decodeVideoLike ty node = some it) :
    it.type = ty ∧ it.is_live = hasLiveBadge node ∧ it.video_count = none := by
  unfold decodeVideoLike at h
  cases h1 : strOf (node.lookup "videoId") <;> rw [h1] at h
  · cases h
  · cases h2 : (node.lookup "title").bind textOf <;> rw [h2] at h
    · cases h
    · cases h
      exact ⟨rfl, rfl, rfl⟩

/-- Inversion for the channel decoder: only id, title, type and thumbnail
are populated; every video- or playlist-specific field keeps its default. -/
theorem decodeChannel_inv (node : J) (it : SearchItem)
    (h : decodeChannel node = some it) :
    it.type = "channel" ∧ it.channel_title = none
    ∧ it.short_byline_text = none ∧ it.length = none
    ∧ it.is_live = false ∧ it.video_count = none := by
  unfold decodeChannel at h
  cases h1 : strOf (node.lookup "channelId") <;> rw [h1] at h
  · cases h
  · cases h2 : (node.lookup "title").bind textOf <;> rw [h2] at h
    · cases h
    · cases h
      exact ⟨rfl, rfl, rfl, rfl, rfl, rfl⟩

/-- Inversion for the playlist decoder: video-specific fields keep their
defaults. -/
theorem decodePlaylist_inv (node : J) (it : SearchItem)
    (h : decodePlaylist node = some it) :
    it.type = "playlist" ∧ it.channel_title = none
    ∧ it.short_byline_text = none ∧ it.length = none
    ∧ it.is_live = false := by
  unfold decodePlaylist at h
  cases h1 : strOf (node.lookup "playlistId") <;> rw [h1] at h
  · cases h
  · cases h2 : (node.lookup "title").bind textOf <;> rw [h2] at h
    · cases h
    · cases h
      exact ⟨rfl, rfl, rfl, rfl, rfl⟩

/-- C3: truncating a decoded page to a limit smaller than the number of
decodable items returns exactly the first limit items in traversal order,
while the continuation token is the one computed from the full untruncated
tree. -/
theorem limit_truncation (t : J) (ctx : Option J) (n : Nat)
    (h : n < (decodeItems t).length) :
    (decodeSearchPage t ctx (some n)).items
      = (decodeSearchPage t ctx none).items.take n
    ∧ ((decodeSearchPage t ctx (some n)).items).length = n
    ∧ (decodeSearchPage t ctx (some n)).next_page
      = (decodeSearchPage t ctx none).next_page := by
  refine ⟨rfl, ?_, rfl⟩
  simp only [decodeSearchPage, List.length_take]
  omega

/-- Witness for C3: eight decodable video nodes with limit five yield five
items and the same token as the unlimited decode. -/
theorem limit_truncation_witness :
    5 < (decodeItems eightVideoTree).length
    ∧ ((decodeSearchPage eightVideoTree none (some 5)).items).length = 5
    ∧ (decodeSearchPage eightVideoTree none (some 5)).next_page
      = (decodeSearchPage eightVideoTree none none).next_page :=
  have h8 : (decodeItems eightVideoTree).length = 8 := rfl
  have h5 : 5 < (decodeItems eightVideoTree).length := by omega
  ⟨h5, (limit_truncation eightVideoTree none 5 h5).2.1,
    (limit_truncation eightVideoTree none 5 h5).2.2⟩

/-- C5: an unrecognized renderer kind decodes to the skip signal; so does
every recognized node missing its required id (videoId, channelId,
playlistId) or its required title — for the video-like, channel and
playlist decoders alike; and a skipped candidate drops out of the decoded
sequence while the remaining candidates still decode. -/
theorem skip_semantics (kind ty : String)
    (node nodeB nodeC nodeD nodeE nodeF nodeG : J)
    (pre post : List (String × J)) (kv : String × J)
    (h1 : kind ∉ itemKinds)
    (h2 : nodeB.lookup "videoId" = none)
    (h3 : (nodeC.lookup "title").bind textOf = none)
    (h4 : nodeD.lookup "channelId" = none)
    (h5 : (nodeE.lookup "title").bind textOf = none)
    (h6 : nodeF.lookup "playlistId" = none)
    (h7 : (nodeG.lookup "title").bind textOf = none)
    (h8 : decodeItem kv.1 kv.2 = none) :
    decodeItem kind node = none
    ∧ decodeVideoLike ty nodeB = none
    ∧ decodeVideoLike ty nodeC = none
    ∧ decodeChannel nodeD = none
    ∧ decodeChannel nodeE = none
    ∧ decodePlaylist nodeF = none
    ∧ decodePlaylist nodeG = none
    ∧ (pre ++ kv :: post).filterMap (fun x => decodeItem x.1 x.2)
      = (pre ++ post).filterMap (fun x => decodeItem x.1 x.2) := by
  refine ⟨?_, ?_, ?_, ?_, ?_, ?_, ?_, ?_⟩
  · simp only [itemKinds, List.mem_cons, List.not_mem_nil, or_false,
      not_or] at h1
    obtain ⟨a, b, c, d⟩ := h1
    simp [decodeItem, a, b, c, d]
  · unfold decodeVideoLike
    rw [h2]
    rfl
  · unfold decodeVideoLike
    cases hv : strOf (nodeC.lookup "videoId") with
    | none => rfl
    | some z => rw [h3]
  · unfold decodeChannel
    rw [h4]
    rfl
  · unfold decodeChannel
    cases hv : strOf (nodeE.lookup "channelId") with
    | none => rfl
    | some z => rw [h5]
  · unfold decodePlaylist
    rw [h6]
    rfl
  · unfold decodePlaylist
    cases hv : strOf (nodeG.lookup "playlistId") with
    | none => rfl
    | some z => rw [h7]
  · simp [List.filterMap_append, List.filterMap_cons, h8]

/-- Witness for C5: the unknown kind, a title-less video node, a title-less
channel node and a title-less playlist node are all dropped, and the mixed
unknown-plus-video tree decodes to exactly the one valid item. -/
theorem skip_semantics_witness :
    "unknownRenderer" ∉ itemKinds
    ∧ decodeItem "unknownRenderer" (jobj []) = none
    ∧ decodeVideoLike "video" (jobj [("videoId", J.str "vt")]) = none
    ∧ decodeChannel (jobj [("channelId", J.str "ct")]) = none
    ∧ decodePlaylist (jobj [("playlistId", J.str "pt")]) = none
    ∧ decodeItems mixedKindTree
      = [{ id := "kept", type := "video", title := "Video kept" }] :=
  have T := skip_semantics "unknownRenderer" "video"
    (jobj []) (jobj []) (jobj [("videoId", J.str "vt")])
    (jobj []) (jobj [("channelId", J.str "ct")])
    (jobj []) (jobj [("playlistId", J.str "pt")])
    [] [] ("x", J.null) (by decide) rfl rfl rfl rfl rfl rfl rfl
  ⟨by decide, T.1, T.2.2.1, T.2.2.2.2.1, T.2.2.2.2.2.2.1, rfl⟩

/-- C7: a decoded video item is live exactly when the badge scan finds the
live-indicator marker in the node's badge list, and a node with no badge
list at all still decodes, with is_live false. -/
theorem live_badge_detection (node : J) (ty : String) (it : SearchItem)
    (h : decodeVideoLike ty node = some it) :
    it.is_live = hasLiveBadge node
    ∧ (node.lookup "badges" = none → it.is_live = false) := by
  obtain ⟨-, h2, -⟩ := decodeVideoLike_inv ty node it h
  refine ⟨h2, fun hb => ?_⟩
  rw [h2]
  unfold hasLiveBadge
  rw [hb]

/-- Witness for C7: a node with a live badge decodes live, a node with no
badge list decodes not live. -/
theorem live_badge_detection_witness :
    (SearchItem.mk "live1" "video" "Live Stream" none none none true none
        none).is_live
      = hasLiveBadge liveVideoNode
    ∧ hasLiveBadge liveVideoNode = true
    ∧ (SearchItem.mk "nobadge" "video" "Video nobadge" none none none false
        none none).is_live
      = false :=
  ⟨(live_badge_detection liveVideoNode "video" _ rfl).1,
   rfl,
   (live_badge_detection noBadgeVideoNode "video" _ rfl).2 rfl⟩

/-- C8: decoding is deterministic — two runs over structurally equal
immutable inputs produce structurally equal pages, item sequences and video
details; the decoders are pure functions of their input. -/
theorem decode_deterministic (t1 t2 : J) (ctx : Option J) (limit : Option Nat)
    (sec : Option J) (h : t1 = t2) :
    decodeSearchPage t1 ctx limit = decodeSearchPage t2 ctx limit
    ∧ decodeItems t1 = decodeItems t2
    ∧ getVideoDetails t1 sec = getVideoDetails t2 sec := by
  subst h
  exact ⟨rfl, rfl, rfl⟩

/-- Witness for C8 at the fixture tree. -/
theorem decode_deterministic_witness :
    decodeSearchPage mockYoutubeInitData none none
      = decodeSearchPage mockYoutubeInitData none none :=
  (decode_deterministic mockYoutubeInitData mockYoutubeInitData none none
    none rfl).1

/-- C9: every decoded item carries one of the four variant tags and exposes
the full field set, with fields inapplicable to the variant holding their
defaults — none, or false for is_live. -/
theorem variant_field_surface (kind : String) (node : J) (it : SearchItem)
    (h : decodeItem kind node = some it) :
    (it.type = "video" ∨ it.type = "channel" ∨ it.type = "playlist"
      ∨ it.type = "movie")
    ∧ (it.type = "channel" →
        it.channel_title = none ∧ it.short_byline_text = none
        ∧ it.length = none ∧ it.is_live = false ∧ it.video_count = none)
    ∧ (it.type = "playlist" →
        it.channel_title = none ∧ it.short_byline_text = none
        ∧ it.length = none ∧ it.is_live = false)
    ∧ ((it.type = "video" ∨ it.type = "movie") → it.video_count = none) := by
  unfold decodeItem at h
  split_ifs at h with hv hm hc hp
  · obtain ⟨hty, -, hvc⟩ := decodeVideoLike_inv _ _ _ h
    refine ⟨Or.inl hty, ?_, ?_, fun _ => hvc⟩
    · intro hch; rw [hty] at hch; exact absurd hch (by decide)
    · intro hpl; rw [hty] at hpl; exact absurd hpl (by decide)
  · obtain ⟨hty, -, hvc⟩ := decodeVideoLike_inv _ _ _ h
    refine ⟨Or.inr (Or.inr (Or.inr hty)), ?_, ?_, fun _ => hvc⟩
    · intro hch; rw [hty] at hch; exact absurd hch (by decide)
    · intro hpl; rw [hty] at hpl; exact absurd hpl (by decide)
  · obtain ⟨hty, hct, hsb, hl, hlv, hvc⟩ := decodeChannel_inv _ _ h
    refine ⟨Or.inr (Or.inl hty), fun _ => ⟨hct, hsb, hl, hlv, hvc⟩, ?_, ?_⟩
    · intro hpl; rw [hty] at hpl; exact absurd hpl (by decide)
    · intro hvm
      rcases hvm with hvm | hvm <;> rw [hty] at hvm <;>
        exact absurd hvm (by decide)
  · obtain ⟨hty, hct, hsb, hl, hlv⟩ := decodePlaylist_inv _ _ h
    refine ⟨Or.inr (Or.inr (Or.inl hty)), ?_, fun _ => ⟨hct, hsb, hl, hlv⟩, ?_⟩
    · intro hch; rw [hty] at hch; exact absurd hch (by decide)
    · intro hvm
      rcases hvm with hvm | hvm <;> rw [hty] at hvm <;>
        exact absurd hvm (by decide)

/-- Witness for C9 at a concrete decoded channel item. -/
theorem variant_field_surface_witness :
    decodeItem "channelRenderer"
      (jobj [("channelId", J.str "c1"),
             ("title", jobj [("simpleText", J.str "Chan")])])
      = some (SearchItem.mk "c1" "channel" "Chan" none none none false none
          none)
    ∧ ((SearchItem.mk "c1" "channel" "Chan" none none none false none
          none).type = "video"
       ∨ (SearchItem.mk "c1" "channel" "Chan" none none none false none
          none).type = "channel"
       ∨ (SearchItem.mk "c1" "channel" "Chan" none none none false none
          none).type = "playlist"
       ∨ (SearchItem.mk "c1" "channel" "Chan" none none none false none
          none).type = "movie") :=
  ⟨rfl,
   (variant_field_surface "channelRenderer"
     (jobj [("channelId", J.str "c1"),
            ("title", jobj [("simpleText", J.str "Chan")])])
     (SearchItem.mk "c1" "channel" "Chan" none none none false none none)
     rfl).1⟩

/-- C4: a player-response blob whose details lack the mandatory video id or
title makes getVideoDetails fail with the data-extraction error, while a
blob with both mandatory fields succeeds, and an absent or empty secondary
suggestion tree yields an empty suggestion sequence rather than an error. -/
theorem video_details_contract (pr1 pr2 : J) (vd1 vd2 : J) (sec : Option J)
    (t3 : J) (i ti : String)
    (h1 : pr1.lookup "videoDetails" = some vd1)
    (h2 : strOf (vd1.lookup "videoId") = none
          ∨ strOf (vd1.lookup "title") = none)
    (h3 : pr2.lookup "videoDetails" = some vd2)
    (h4 : strOf (vd2.lookup "videoId") = some i)
    (h5 : strOf (vd2.lookup "title") = some ti)
    (h6 : decodeVideoSuggestions t3 = []) :
    getVideoDetails pr1 sec
      = .error (.dataExtraction "videoId or title missing")
    ∧ (∃ d, getVideoDetails pr2 none = .ok d
        ∧ d.id = i ∧ d.title = ti ∧ d.suggestion = [])
    ∧ (∃ d, getVideoDetails pr2 (some t3) = .ok d ∧ d.suggestion = []) := by
  refine ⟨?_, ?_, ?_⟩
  · simp only [getVideoDetails, h1]
    rcases h2 with h2 | h2
    · rw [h2]
    · cases hv : strOf (vd1.lookup "videoId") with
      | none => rfl
      | some z => rw [h2]
  · simp only [getVideoDetails, h3, h4, h5]
    exact ⟨_, rfl, rfl, rfl, rfl⟩
  · simp only [getVideoDetails, h3, h4, h5]
    exact ⟨_, rfl, h6⟩

/-- Witness for C4 at the repository's player fixtures: the id-less blob
errors; the full fixture blob succeeds with empty suggestions, both with no
secondary tree and with an empty one. -/
theorem video_details_contract_witness :
    getVideoDetails missingIdPlayerData none
      = .error (.dataExtraction "videoId or title missing")
    ∧ getVideoDetails mockPlayerData none
      = .ok { id := "test_video_id", title := "Test Video Title",
              channel := some "Test Channel",
              channel_id := some "test_channel_id",
              description := "Test video description",
              keywords := ["test", "video", "python"],
              thumbnail := some (jobj [("thumbnails",
                jarr [jobj [("url", J.str "test_thumbnail.jpg")]])]),
              is_live := false, suggestion := [] } :=
  ⟨(video_details_contract missingIdPlayerData mockPlayerData _ _ none
      (jarr []) "test_video_id" "Test Video Title" rfl (Or.inl rfl) rfl rfl
      rfl rfl).1,
   rfl⟩
